import Mathlib

/-!
Verification of the cloud-capability classification engine of the
`rhaii-on-xks` preflight checker (`validation/llmd_xks_checks.py` and
`validation/cloud_providers.py`).

Node snapshots are lists of records with association-list label and
allocatable maps.  Functions that may raise a Python exception are embedded
with `Except String`: `Except.error e` models an exception with text `e`
escaping the function, `Except.ok` a normal return.  A validator result
`(success, message)` is a `Bool × String` pair.
-/

/-- One cluster compute node: name, labels map, allocatable-resource map
(both association lists, as snapshots of the Kubernetes node object). -/
structure Node where
  name : String
  labels : List (String × String)
  allocatable : List (String × String)
deriving DecidableEq, Repr

/-- Python `dict.get(k)`: first binding of key `k`, if any. -/
def alookup {α : Type} (m : List (String × α)) (k : String) : Option α :=
  (m.find? (fun p => p.1 == k)).map (fun p => p.2)

/-- Value of a digit string, `none` when empty or not all digits. -/
def digitsVal (cs : List Char) : Option Nat :=
  if cs.isEmpty || !(cs.all Char.isDigit) then none
  else some (cs.foldl (fun acc c => acc * 10 + (c.toNat - 48)) 0)

/-- Leading and trailing whitespace removed, as Python `str.strip()`. -/
def pyTrim (cs : List Char) : List Char :=
  ((cs.dropWhile Char.isWhitespace).reverse.dropWhile Char.isWhitespace).reverse

/-- Python `int(s)`: optional surrounding whitespace, optional sign, digits;
`none` models `int` raising `ValueError`. -/
def pyInt (s : String) : Option Int :=
  match pyTrim s.data with
  | '+' :: rest => (digitsVal rest).map (fun n => (n : Int))
  | '-' :: rest => (digitsVal rest).map (fun n => -(n : Int))
  | t => (digitsVal t).map (fun n => (n : Int))

/-- Python `repr` of a one-element-per-string list (used in f-string
interpolation of a list of families). -/
def pyListRepr (xs : List String) : String :=
  let q := (Char.ofNat 39).toString
  "[" ++ String.intercalate ", " (xs.map (fun s => q ++ s ++ q)) ++ "]"

/-- Whether an embedded computation returned normally. -/
def exOk {α : Type} : Except String α → Bool
  | .ok _ => true
  | .error _ => false

instance {ε α : Type} [DecidableEq ε] [DecidableEq α] : DecidableEq (Except ε α) :=
  fun x y =>
    match x, y with
    | .ok a, .ok b =>
      if h : a = b then .isTrue (by rw [h])
      else .isFalse (fun hh => h (Except.ok.inj hh))
    | .error a, .error b =>
      if h : a = b then .isTrue (by rw [h])
      else .isFalse (fun hh => h (Except.error.inj hh))
    | .ok _, .error _ => .isFalse (fun hh => Except.noConfusion hh)
    | .error _, .ok _ => .isFalse (fun hh => Except.noConfusion hh)

/-- One `accel` entry of the provider configuration
(the `AcceleratorConfig` TypedDict, llmd_xks_checks.py lines 21-25). -/
structure AcceleratorConfig where
  name : String
  type_label : String
  resource_key : String
  extra_labels : List String
deriving DecidableEq, Repr

/-- The `CloudProviderConfig` TypedDict (llmd_xks_checks.py lines 28-31). -/
structure CloudProviderConfig where
  detect_labels : List String
  instance_families : List String
  accelerators : List AcceleratorConfig
deriving DecidableEq, Repr

/-- The Azure entry of the registry, `CLOUD_PROVIDERS["azure"]`
(llmd_xks_checks.py lines 34-51). -/
def azure_config : CloudProviderConfig where
  detect_labels := ["kubernetes.azure.com/cluster"]
  instance_families :=
    ["Standard_NC24ads_A100_v4", "Standard_ND96asr_v4",
     "Standard_ND96amsr_A100_v4", "Standard_ND96isr_H100_v5",
     "Standard_ND96isr_H200_v5"]
  accelerators :=
    [{ name := "GPU", type_label := "nvidia.com/gpu.present",
       resource_key := "nvidia.com/gpu", extra_labels := [] }]

/-- The provider registry `CLOUD_PROVIDERS` in declaration order
(llmd_xks_checks.py line 34). -/
def CLOUD_PROVIDERS : List (String × CloudProviderConfig) :=
  [("azure", azure_config)]

/-- Embedding of `detect_cloud` (llmd_xks_checks.py lines 58-65): any node carrying any
of the detection labels. -/
def detect_cloud (nodes : List Node) (config : CloudProviderConfig) : Bool :=
  nodes.any (fun node =>
    config.detect_labels.any (fun label => (alookup node.labels label).isSome))

/-- The `LLMDXKSChecks._detect_provider` loop (llmd_xks_checks.py lines 205-208):
first provider in registry order whose detection labels appear. -/
def detect_provider (nodes : List Node) :
    List (String × CloudProviderConfig) → Option String
  | [] => none
  | (name, config) :: rest =>
    if detect_cloud nodes config then some name else detect_provider nodes rest

/-- Embedding of `_detect_provider` including the guarded node-listing query
(llmd_xks_checks.py lines 199-203): a listing failure yields `None`. -/
def detect_provider_from (listNodes : Except String (List Node)) : Option String :=
  match listNodes with
  | .error _ => none
  | .ok nodes => detect_provider nodes CLOUD_PROVIDERS

/-- Instance-type label read used by the generic and Azure validators
(llmd_xks_checks.py lines 81-82, cloud_providers.py lines 128-129):
Python `labels.get(new) or labels.get(old, "")`. -/
def getInstanceType (labels : List (String × String)) : String :=
  match alookup labels "node.kubernetes.io/instance-type" with
  | some v =>
    if v = "" then (alookup labels "beta.kubernetes.io/instance-type").getD "" else v
  | none => (alookup labels "beta.kubernetes.io/instance-type").getD ""

/-- Python `s.split(c)[0]`: the segment before the first `-`. -/
def firstSegment (s : String) : String := ⟨s.data.takeWhile (fun c => c != '-')⟩

/-- Mode selection `use_exact = any("_" in f for f in families)`
(llmd_xks_checks.py line 76). -/
def use_exact (families : List String) : Bool :=
  families.any (fun f => '_' ∈ f.data)

/-- Loop body of `validate_instance_types` (llmd_xks_checks.py lines 79-94):
the diagnostic entry contributed by one node, if it matches. -/
def instanceEntry (families : List String) (exact : Bool) (node : Node) :
    Option String :=
  let instance_type := getInstanceType node.labels
  if instance_type = "" then none
  else if exact then
    if instance_type ∈ families then some (instance_type ++ " on " ++ node.name)
    else none
  else
    if firstSegment instance_type ∈ families then
      some (instance_type ++ " on " ++ node.name)
    else none

/-- Embedding of `validate_instance_types` (llmd_xks_checks.py lines 68-98). -/
def validate_instance_types (nodes : List Node) (config : CloudProviderConfig) :
    Bool × String :=
  let families := config.instance_families
  let found := nodes.filterMap (instanceEntry families (use_exact families))
  if found.isEmpty then
    (false, "No supported instance types found. Expected families: " ++
      pyListRepr families)
  else
    (true, "Found supported instance types: " ++ String.intercalate ", " found)

/-- Python `s.rsplit(sep, 1)[-1]`: the segment after the last `/`. -/
def lastSegment (s : String) : String :=
  ⟨(s.data.reverse.takeWhile (fun c => c != '/')).reverse⟩

/-- Extra-label diagnostics of one node
(llmd_xks_checks.py lines 115-120). -/
def extrasFor (accel : AcceleratorConfig) (labels : List (String × String)) :
    List String :=
  accel.extra_labels.filterMap (fun elabel =>
    let val := (alookup labels elabel).getD ""
    if val = "" then none else some (lastSegment elabel ++ ": " ++ val))

/-- Detail string for a counted accelerator node
(llmd_xks_checks.py lines 122-124). -/
def accelDetail (accel : AcceleratorConfig) (node : Node) (type_value : String)
    (count : Int) : String :=
  let extras := extrasFor accel node.labels
  let detail := type_value ++ ": " ++ toString count
  if extras.isEmpty then detail
  else detail ++ ", " ++ String.intercalate ", " extras

/-- Inner loop body of `validate_accelerators`
(llmd_xks_checks.py lines 107-131): the entry one node contributes for one
accelerator class, or the exception raised by `int(...)`. -/
def nodeAccelEntry (accel : AcceleratorConfig) (node : Node) :
    Except String (Option String) :=
  let type_value := (alookup node.labels accel.type_label).getD ""
  let raw := (alookup node.allocatable accel.resource_key).getD "0"
  match pyInt raw with
  | none => .error ("invalid literal for int with base 10: " ++ raw)
  | some count =>
    if type_value ≠ "" ∧ count > 0 then
      .ok (some (node.name ++ " (" ++ accelDetail accel node type_value count ++ ")"))
    else .ok none

/-- Sequential per-node scan accumulating diagnostic entries, stopping at the
first node whose entry computation raises. -/
def scanEntries (f : Node → Except String (Option String)) :
    List Node → Except String (List String)
  | [] => .ok []
  | node :: rest =>
    match f node with
    | .error e => .error e
    | .ok entry => (scanEntries f rest).map (fun tail => entry.toList ++ tail)

/-- The value an entry computation contributes when it returns normally. -/
def entryOpt (f : Node → Except String (Option String)) (node : Node) :
    Option String :=
  match f node with
  | .ok o => o
  | .error _ => none

/-- Outer loop of `validate_accelerators` (llmd_xks_checks.py lines 105-134):
one summary line per accelerator class with qualifying nodes. -/
def accelSummaries (nodes : List Node) :
    List AcceleratorConfig → Except String (List String)
  | [] => .ok []
  | accel :: rest =>
    match scanEntries (nodeAccelEntry accel) nodes with
    | .error e => .error e
    | .ok accel_nodes =>
      (accelSummaries nodes rest).map (fun tail =>
        (if accel_nodes.isEmpty then []
         else [accel.name ++ " available on: " ++
                String.intercalate ", " accel_nodes]) ++ tail)

/-- Embedding of `validate_accelerators` (llmd_xks_checks.py lines 101-139). -/
def validate_accelerators (nodes : List Node) (config : CloudProviderConfig) :
    Except String (Bool × String) :=
  match accelSummaries nodes config.accelerators with
  | .error e => .error e
  | .ok all_found =>
    if all_found.isEmpty then
      .ok (false, "No accelerators found (checked: " ++
        String.intercalate ", " (config.accelerators.map (fun a => a.name)) ++ ")")
    else .ok (true, String.intercalate " | " all_found)

/-- The list `AzureProvider.SUPPORTED_INSTANCES` (cloud_providers.py lines 89-95). -/
def SUPPORTED_INSTANCES : List String :=
  ["Standard_NC24ads_A100_v4", "Standard_ND96asr_v4",
   "Standard_ND96amsr_A100_v4", "Standard_ND96isr_H100_v5",
   "Standard_ND96isr_H200_v5"]

/-- Per-supported-type node tally of `AzureProvider.validate_instance_types`
(cloud_providers.py lines 121-133). -/
def azureCount (nodes : List Node) (vm : String) : Nat :=
  (nodes.filter (fun node => getInstanceType node.labels == vm)).length

/-- Body of `AzureProvider.validate_instance_types` after the node listing
(cloud_providers.py lines 121-141). -/
def azure_it_check (nodes : List Node) : Bool × String :=
  let found_types := SUPPORTED_INSTANCES.filterMap (fun vm =>
    if 0 < azureCount nodes vm then
      some (vm ++ " (" ++ toString (azureCount nodes vm) ++ " nodes)")
    else none)
  if found_types.isEmpty then
    (false, "No supported Azure instance types found. Expected: " ++
      pyListRepr SUPPORTED_INSTANCES)
  else
    (true, "Found supported Azure instance types: " ++
      String.intercalate ", " found_types)

/-- Embedding of `AzureProvider.validate_instance_types` (cloud_providers.py lines
115-141): the unguarded node-listing call makes a listing failure
propagate. -/
def azure_validate_instance_types (listNodes : Except String (List Node)) :
    Except String (Bool × String) :=
  listNodes.map azure_it_check

/-- Loop body of `AzureProvider.validate_accelerators` (cloud_providers.py
lines 153-167): note the bare key-presence test on `nvidia.com/gpu.present`
and the `int` call that may raise. -/
def azureAccelEntry (node : Node) : Except String (Option String) :=
  if (alookup node.labels "nvidia.com/gpu.present").isSome then
    let gpu_count := (alookup node.allocatable "nvidia.com/gpu").getD "0"
    match pyInt gpu_count with
    | none => .error ("invalid literal for int with base 10: " ++ gpu_count)
    | some c =>
      if c > 0 then .ok (some (node.name ++ " (" ++ gpu_count ++ " GPUs)"))
      else .ok none
  else .ok none

/-- Embedding of `AzureProvider.validate_accelerators` (cloud_providers.py lines
143-172): unguarded listing, so a listing failure propagates. -/
def azure_validate_accelerators (listNodes : Except String (List Node)) :
    Except String (Bool × String) := do
  let nodes ← listNodes
  let gpu_nodes ← scanEntries azureAccelEntry nodes
  if gpu_nodes.isEmpty then
    pure (false, "No GPUs with drivers found (checked nvidia.com/gpu resource)")
  else pure (true, "GPU available on: " ++ String.intercalate ", " gpu_nodes)

/-- The list `GCPProvider.TPU_MACHINE_FAMILIES` (cloud_providers.py line 187). -/
def TPU_MACHINE_FAMILIES : List String := ["ct6e", "ct5e", "ct5p"]

/-- The list `GCPProvider.GPU_MACHINE_FAMILIES` (cloud_providers.py line 188). -/
def GPU_MACHINE_FAMILIES : List String := ["n1", "a2", "g2", "a3"]

/-- Loop body of `GCPProvider.validate_instance_types` (cloud_providers.py
lines 317-327): only the `node.kubernetes.io/instance-type` label is read. -/
def gcpInstanceEntry (node : Node) : Option String :=
  let machine_type :=
    (alookup node.labels "node.kubernetes.io/instance-type").getD ""
  if machine_type ≠ "" ∧
      firstSegment machine_type ∈ TPU_MACHINE_FAMILIES ++ GPU_MACHINE_FAMILIES then
    some (machine_type ++ " on " ++ node.name)
  else none

/-- Body of `GCPProvider.validate_instance_types` after the node listing
(cloud_providers.py lines 313-332). -/
def gcp_it_check (nodes : List Node) : Bool × String :=
  let valid_types := nodes.filterMap gcpInstanceEntry
  if valid_types.isEmpty then
    (false, "No supported machine types. Expected families: " ++
      pyListRepr (TPU_MACHINE_FAMILIES ++ GPU_MACHINE_FAMILIES))
  else
    (true, "Found supported machine types: " ++
      String.intercalate ", " valid_types)

/-- Embedding of `GCPProvider.validate_instance_types` (cloud_providers.py lines
305-332): unguarded listing call. -/
def gcp_validate_instance_types (listNodes : Except String (List Node)) :
    Except String (Bool × String) :=
  listNodes.map gcp_it_check

/-- Loop body of `GCPProvider._check_gpu` (cloud_providers.py lines
360-369); `int` is reached only when the accelerator label is non-empty. -/
def gcpGpuEntry (node : Node) : Except String (Option String) :=
  let gpu_type := (alookup node.labels "cloud.google.com/gke-accelerator").getD ""
  let gpu_count := (alookup node.allocatable "nvidia.com/gpu").getD "0"
  if gpu_type = "" then .ok none
  else
    match pyInt gpu_count with
    | none => .error ("invalid literal for int with base 10: " ++ gpu_count)
    | some c =>
      if c > 0 then
        .ok (some (node.name ++ " (" ++ gpu_type ++ ": " ++ gpu_count ++ ")"))
      else .ok none

/-- Embedding of `GCPProvider._check_gpu` (cloud_providers.py lines 350-374): the node
listing is guarded, so a listing failure becomes a failed result. -/
def gcp_check_gpu (listNodes : Except String (List Node)) :
    Except String (Bool × String) :=
  match listNodes with
  | .error e => .ok (false, "Failed to query nodes: " ++ e)
  | .ok nodes =>
    (scanEntries gcpGpuEntry nodes).map (fun gpu_nodes =>
      if gpu_nodes.isEmpty then
        (false, "No GPUs found (checked nvidia.com/gpu resource)")
      else (true, "GPU available on: " ++ String.intercalate ", " gpu_nodes))

/-- Loop body of `GCPProvider._check_tpu` (cloud_providers.py lines
386-399). -/
def gcpTpuEntry (node : Node) : Except String (Option String) :=
  let tpu_type :=
    (alookup node.labels "cloud.google.com/gke-tpu-accelerator").getD ""
  let tpu_count := (alookup node.allocatable "google.com/tpu").getD "0"
  let tpu_topology :=
    (alookup node.labels "cloud.google.com/gke-tpu-topology").getD ""
  if tpu_type = "" then .ok none
  else
    match pyInt tpu_count with
    | none => .error ("invalid literal for int with base 10: " ++ tpu_count)
    | some c =>
      if c > 0 then
        let topology_str :=
          if tpu_topology = "" then "" else ", topology: " ++ tpu_topology
        .ok (some (node.name ++ " (" ++ tpu_type ++ topology_str ++ ": " ++
          tpu_count ++ " chips)"))
      else .ok none

/-- Embedding of `GCPProvider._check_tpu` (cloud_providers.py lines 376-404): guarded
node listing. -/
def gcp_check_tpu (listNodes : Except String (List Node)) :
    Except String (Bool × String) :=
  match listNodes with
  | .error e => .ok (false, "Failed to query nodes: " ++ e)
  | .ok nodes =>
    (scanEntries gcpTpuEntry nodes).map (fun tpu_nodes =>
      if tpu_nodes.isEmpty then
        (false, "No TPUs found (checked google.com/tpu resource)")
      else (true, "TPU available on: " ++ String.intercalate ", " tpu_nodes))

/-- Embedding of `GCPProvider.validate_accelerators`
(cloud_providers.py lines 334-348). -/
def gcp_validate_accelerators (listNodes : Except String (List Node)) :
    Except String (Bool × String) := do
  let gpu_result ← gcp_check_gpu listNodes
  let tpu_result ← gcp_check_tpu listNodes
  if gpu_result.1 || tpu_result.1 then
    pure (true, String.intercalate " | "
      (([gpu_result, tpu_result].filter (fun r => r.1)).map (fun r => r.2)))
  else
    pure (false, "No accelerators found. GPU: " ++ gpu_result.2 ++
      ", TPU: " ++ tpu_result.2)

/-- The static `GCPProvider.ZONE_DATA` (cloud_providers.py lines 192-284): accelerator
class, then model, then zone with region label. -/
def ZONE_DATA : List (String × List (String × List (String × String))) :=
  [("tpu",
    [("v6e",
      [("us-central1-b", "US Central"),
       ("us-east1-d", "US East"),
       ("us-east5-a", "US East (Columbus)"),
       ("us-east5-b", "US East (Columbus)"),
       ("us-south1-a", "US South (Dallas)"),
       ("us-south1-b", "US South (Dallas)"),
       ("europe-west4-a", "Europe (Netherlands)"),
       ("asia-northeast1-b", "Asia (Tokyo)"),
       ("southamerica-west1-a", "South America (Santiago)")]),
     ("v5e",
      [("europe-west4-b", "Europe (Netherlands)"),
       ("us-central1-a", "US Central"),
       ("us-south1-a", "US South (Dallas)"),
       ("us-west1-c", "US West (Oregon)"),
       ("us-west4-a", "US West (Las Vegas)")]),
     ("v5p",
      [("europe-west4-b", "Europe (Netherlands)"),
       ("us-central1-a", "US Central"),
       ("us-east5-a", "US East (Columbus)")])]),
   ("gpu",
    [("t4",
      [("us-central1-a", "US Central"),
       ("us-central1-b", "US Central"),
       ("us-central1-c", "US Central"),
       ("us-central1-f", "US Central"),
       ("us-east1-b", "US East"),
       ("us-east1-c", "US East"),
       ("us-east1-d", "US East"),
       ("us-east4-a", "US East (Virginia)"),
       ("us-east4-b", "US East (Virginia)"),
       ("us-east4-c", "US East (Virginia)"),
       ("us-west1-a", "US West (Oregon)"),
       ("us-west1-b", "US West (Oregon)"),
       ("us-west2-b", "US West (Los Angeles)"),
       ("us-west2-c", "US West (Los Angeles)"),
       ("us-west4-a", "US West (Las Vegas)"),
       ("us-west4-b", "US West (Las Vegas)"),
       ("europe-west1-b", "Europe (Belgium)"),
       ("europe-west1-c", "Europe (Belgium)"),
       ("europe-west4-a", "Europe (Netherlands)"),
       ("europe-west4-b", "Europe (Netherlands)"),
       ("asia-east1-a", "Asia (Taiwan)"),
       ("asia-southeast1-a", "Asia (Singapore)")]),
     ("a100",
      [("us-central1-a", "US Central"),
       ("us-central1-b", "US Central"),
       ("us-central1-c", "US Central"),
       ("us-east1-c", "US East"),
       ("us-east4-a", "US East (Virginia)"),
       ("us-east4-b", "US East (Virginia)"),
       ("us-west1-a", "US West (Oregon)"),
       ("us-west1-b", "US West (Oregon)"),
       ("europe-west4-a", "Europe (Netherlands)"),
       ("europe-west4-b", "Europe (Netherlands)"),
       ("asia-southeast1-c", "Asia (Singapore)"),
       ("asia-northeast1-a", "Asia (Tokyo)"),
       ("asia-northeast1-c", "Asia (Tokyo)")]),
     ("l4",
      [("us-central1-a", "US Central"),
       ("us-central1-b", "US Central"),
       ("us-central1-c", "US Central"),
       ("us-east1-c", "US East"),
       ("us-east4-a", "US East (Virginia)"),
       ("us-east4-b", "US East (Virginia)"),
       ("us-west1-a", "US West (Oregon)"),
       ("us-west1-b", "US West (Oregon)"),
       ("us-west4-b", "US West (Las Vegas)"),
       ("europe-west1-b", "Europe (Belgium)"),
       ("europe-west4-a", "Europe (Netherlands)"),
       ("asia-southeast1-b", "Asia (Singapore)"),
       ("asia-northeast1-b", "Asia (Tokyo)")]),
     ("h100",
      [("us-central1-a", "US Central"),
       ("us-central1-b", "US Central"),
       ("us-east4-a", "US East (Virginia)"),
       ("us-east4-c", "US East (Virginia)"),
       ("us-west1-a", "US West (Oregon)"),
       ("us-west4-b", "US West (Las Vegas)"),
       ("europe-west4-a", "Europe (Netherlands)"),
       ("asia-southeast1-c", "Asia (Singapore)")])])]

/-- Zone table for one accelerator class and model, empty when either level
is absent, as the chained `dict.get` calls at cloud_providers.py lines 430
and 447. -/
def zoneTableFor (cls model : String) : List (String × String) :=
  (alookup ((alookup ZONE_DATA cls).getD []) model).getD []

/-- TPU version extraction (cloud_providers.py lines 423-428). -/
def tpuVersionOf (tpu_type : String) : String :=
  if '-' ∈ tpu_type.data then firstSegment tpu_type else tpu_type

/-- Left-to-right deletion of every non-overlapping occurrence of pattern
`p`, as Python `s.replace(p, "")`.  Structural recursion on a fuel that
bounds the number of examined characters; every step consumes at least one
character, so fuel equal to the length of the string is enough. -/
def deleteOccFuel (p : List Char) : Nat → List Char → List Char
  | 0, s => s
  | _ + 1, [] => []
  | fuel + 1, c :: rest =>
    if p ≠ [] ∧ p.isPrefixOf (c :: rest) then
      deleteOccFuel p fuel (rest.drop (p.length - 1))
    else c :: deleteOccFuel p fuel rest

/-- Python `s.replace(p, "")` over character lists. -/
def deleteOcc (p s : List Char) : List Char :=
  deleteOccFuel p s.length s

/-- GPU model normalization
`gpu_type.replace("nvidia-tesla-", "").replace("nvidia-", "")`
(cloud_providers.py line 443). -/
def gpuShort (gpu_type : String) : String :=
  ⟨deleteOcc "nvidia-".data (deleteOcc "nvidia-tesla-".data gpu_type.data)⟩

/-- Condition of the format warning `Unexpected GPU type format` logged at
cloud_providers.py lines 444-445. -/
def gpuFormatWarn (gpu_type : String) : Bool :=
  gpuShort gpu_type == gpu_type

/-- TPU part of the zone loop body (cloud_providers.py lines 421-437). -/
def tpuZoneWarning (node : Node) : List String :=
  let zone := (alookup node.labels "topology.kubernetes.io/zone").getD ""
  let tpu_type :=
    (alookup node.labels "cloud.google.com/gke-tpu-accelerator").getD ""
  if tpu_type ≠ "" ∧ zone ≠ "" then
    let tpu_version := tpuVersionOf tpu_type
    let valid_zones := zoneTableFor "tpu" tpu_version
    if valid_zones ≠ [] ∧ alookup valid_zones zone = none then
      ["TPU " ++ tpu_type ++ " on " ++ node.name ++ " in zone " ++ zone ++
        " not in validated zones for " ++ tpu_version]
    else []
  else []

/-- GPU part of the zone loop body (cloud_providers.py lines 440-454). -/
def gpuZoneWarning (node : Node) : List String :=
  let zone := (alookup node.labels "topology.kubernetes.io/zone").getD ""
  let gpu_type :=
    (alookup node.labels "cloud.google.com/gke-accelerator").getD ""
  if gpu_type ≠ "" ∧ zone ≠ "" then
    let gpu_short := gpuShort gpu_type
    let valid_zones := zoneTableFor "gpu" gpu_short
    if valid_zones ≠ [] ∧ alookup valid_zones zone = none then
      ["GPU " ++ gpu_type ++ " on " ++ node.name ++ " in zone " ++ zone ++
        " not in validated zones for " ++ gpu_short]
    else []
  else []

/-- Warnings one node contributes in `validate_zone_compatibility`. -/
def nodeZoneWarnings (node : Node) : List String :=
  tpuZoneWarning node ++ gpuZoneWarning node

/-- Body of `GCPProvider.validate_zone_compatibility` after the node listing
(cloud_providers.py lines 413-459). -/
def zone_check (nodes : List Node) : Bool × String :=
  let warnings := nodes.flatMap nodeZoneWarnings
  if warnings.isEmpty then (true, "All accelerators in validated zones")
  else (false, String.intercalate "; " warnings)

/-- Embedding of `GCPProvider.validate_zone_compatibility` (cloud_providers.py lines
406-459): unguarded listing call. -/
def validate_zone_compatibility (listNodes : Except String (List Node)) :
    Except String (Bool × String) :=
  listNodes.map zone_check

/-- Matched diagnostic entries of the generic instance-type validator. -/
def itFound (nodes : List Node) (config : CloudProviderConfig) : List String :=
  nodes.filterMap
    (instanceEntry config.instance_families (use_exact config.instance_families))

/-- Names of the nodes matched by the generic instance-type validator. -/
def instanceMatchedNames (nodes : List Node) (config : CloudProviderConfig) :
    List String :=
  nodes.filterMap (fun node =>
    if (instanceEntry config.instance_families (use_exact config.instance_families)
        node).isSome then some node.name else none)

/-- Summary line one accelerator class contributes on a normally-returning
pass, `none` when no node qualifies. -/
def summaryOpt (accel : AcceleratorConfig) (nodes : List Node) : Option String :=
  let accel_nodes := nodes.filterMap (entryOpt (nodeAccelEntry accel))
  if accel_nodes.isEmpty then none
  else some (accel.name ++ " available on: " ++ String.intercalate ", " accel_nodes)

/-- Success flag of the accelerator validator, `none` when it raises. -/
def accelResultBool (nodes : List Node) (config : CloudProviderConfig) :
    Option Bool :=
  match validate_accelerators nodes config with
  | .ok r => some r.1
  | .error _ => none

/-- Names of the nodes counted by the accelerator validator toward any
accelerator class. -/
def accelMatchedNames (nodes : List Node) (config : CloudProviderConfig) :
    List String :=
  config.accelerators.flatMap (fun accel =>
    nodes.filterMap (fun node =>
      if (entryOpt (nodeAccelEntry accel) node).isSome then some node.name
      else none))

/-- Concrete sample node: supported Azure SKU with a driver-enabled GPU. -/
def nodeX : Node :=
  ⟨"x-node",
   [("node.kubernetes.io/instance-type", "Standard_ND96asr_v4"),
    ("nvidia.com/gpu.present", "true")],
   [("nvidia.com/gpu", "8")]⟩

/-- Concrete sample node carrying no labels. -/
def nodeY : Node := ⟨"y-node", [], []⟩

example : detect_provider [] CLOUD_PROVIDERS = none := by decide

example :
    validate_instance_types
      [⟨"node-1", [("node.kubernetes.io/instance-type", "Standard_NC24ads_A100_v4")], []⟩]
      azure_config =
    (true, "Found supported instance types: Standard_NC24ads_A100_v4 on node-1") := by
  decide

example :
    validate_accelerators
      [⟨"node-1", [("nvidia.com/gpu.present", "true")], [("nvidia.com/gpu", "4")]⟩]
      azure_config =
    .ok (true, "GPU available on: node-1 (true: 4)") := by decide

example :
    validate_accelerators
      [⟨"node-1", [("nvidia.com/gpu.present", "true")], [("nvidia.com/gpu", "oops")]⟩]
      azure_config =
    .error "invalid literal for int with base 10: oops" := by decide

example : gpuShort "nvidia-tesla-t4" = "t4" := by decide

example : gpuShort "nvidia-l4" = "l4" := by decide

example :
    zone_check
      [⟨"tpu-node-1",
        [("cloud.google.com/gke-tpu-accelerator", "v6e-slice"),
         ("topology.kubernetes.io/zone", "us-west99-z")], [("google.com/tpu", "4")]⟩] =
    (false, "TPU v6e-slice on tpu-node-1 in zone us-west99-z not in validated zones for v6e") := by
  decide

example :
    zone_check
      [⟨"gpu-node-1",
        [("cloud.google.com/gke-accelerator", "nvidia-tesla-t4"),
         ("topology.kubernetes.io/zone", "us-central1-a")], [("nvidia.com/gpu", "1")]⟩] =
    (true, "All accelerators in validated zones") := by decide

example :
    azure_it_check
      [⟨"node-a", [("node.kubernetes.io/instance-type", "Standard_NC24ads_A100_v4")], []⟩] =
    (true, "Found supported Azure instance types: Standard_NC24ads_A100_v4 (1 nodes)") := by
  decide

example :
    gcp_check_gpu (.error "boom") = .ok (false, "Failed to query nodes: boom") := by
  decide

example : azure_validate_instance_types (.error "boom") = .error "boom" := rfl

example :
    gcp_it_check [⟨"gpu-node-1", [("node.kubernetes.io/instance-type", "n1-standard-4")], []⟩] =
    (true, "Found supported machine types: n1-standard-4 on gpu-node-1") := by decide

/-! ### Helper lemmas about the embedded validators -/

lemma exOk_map {α β : Type} (g : α → β) (e : Except String α) :
    exOk (e.map g) = exOk e := by
  cases e <;> rfl

lemma exOk_scanEntries (f : Node → Except String (Option String)) :
    ∀ nodes : List Node,
      exOk (scanEntries f nodes) = nodes.all (fun n => exOk (f n))
  | [] => rfl
  | node :: rest => by
    simp only [scanEntries, List.all_cons]
    cases hf : f node with
    | error e => simp [exOk]
    | ok entry =>
      rw [exOk_map, exOk_scanEntries f rest]
      simp [exOk]

lemma scanEntries_ok (f : Node → Except String (Option String)) :
    ∀ nodes : List Node, (∀ n ∈ nodes, exOk (f n) = true) →
      scanEntries f nodes = .ok (nodes.filterMap (entryOpt f))
  | [], _ => rfl
  | node :: rest, h => by
    have hf := h node (List.mem_cons_self node rest)
    cases hfe : f node with
    | error e => rw [hfe] at hf; simp [exOk] at hf
    | ok entry =>
      have hrest := scanEntries_ok f rest (fun n hn => h n (List.mem_cons_of_mem _ hn))
      simp only [scanEntries, hfe, hrest, Except.map, List.filterMap_cons, entryOpt]
      cases entry <;> simp [entryOpt, hfe]

lemma scanEntries_eq_of_ok (f : Node → Except String (Option String))
    (nodes : List Node) (h : exOk (scanEntries f nodes) = true) :
    scanEntries f nodes = .ok (nodes.filterMap (entryOpt f)) := by
  refine scanEntries_ok f nodes (fun n hn => ?_)
  rw [exOk_scanEntries] at h
  exact List.all_eq_true.mp h n hn

lemma exOk_accelSummaries (nodes : List Node) :
    ∀ accels : List AcceleratorConfig,
      exOk (accelSummaries nodes accels) =
        accels.all (fun a => exOk (scanEntries (nodeAccelEntry a) nodes))
  | [] => rfl
  | accel :: rest => by
    simp only [accelSummaries, List.all_cons]
    cases hs : scanEntries (nodeAccelEntry accel) nodes with
    | error e => simp [exOk]
    | ok l =>
      rw [exOk_map, exOk_accelSummaries nodes rest]
      simp [exOk]

lemma accelSummaries_ok (nodes : List Node) :
    ∀ accels : List AcceleratorConfig,
      (∀ a ∈ accels, exOk (scanEntries (nodeAccelEntry a) nodes) = true) →
      accelSummaries nodes accels =
        .ok (accels.filterMap (fun a => summaryOpt a nodes))
  | [], _ => rfl
  | accel :: rest, h => by
    have h1 := h accel (List.mem_cons_self accel rest)
    have hs := scanEntries_eq_of_ok (nodeAccelEntry accel) nodes h1
    have hrest := accelSummaries_ok nodes rest (fun a ha => h a (List.mem_cons_of_mem _ ha))
    simp only [accelSummaries, hs, hrest, Except.map, List.filterMap_cons, summaryOpt]
    by_cases he : (nodes.filterMap (entryOpt (nodeAccelEntry accel))).isEmpty
    · simp [he]
    · simp [he]

lemma exOk_validate_accelerators (nodes : List Node) (config : CloudProviderConfig) :
    exOk (validate_accelerators nodes config) =
      config.accelerators.all (fun a => nodes.all (fun n => exOk (nodeAccelEntry a n))) := by
  have hchain :
      exOk (validate_accelerators nodes config) =
        exOk (accelSummaries nodes config.accelerators) := by
    unfold validate_accelerators
    cases accelSummaries nodes config.accelerators with
    | error e => rfl
    | ok l =>
      by_cases he : l.isEmpty <;> simp [exOk, he]
  rw [hchain, exOk_accelSummaries]
  simp only [exOk_scanEntries]

/-! ### Helper lemmas about occurrence deletion -/

lemma isPrefixOfIff (l₁ l₂ : List Char) : l₁.isPrefixOf l₂ = true ↔ l₁ <+: l₂ :=
  List.isPrefixOf_iff_prefix

lemma prefixIsInfix {α : Type} {l₁ l₂ : List α} (h : l₁ <+: l₂) : l₁ <:+: l₂ :=
  List.IsPrefix.isInfix h

lemma infixCons {α : Type} {l₁ l₂ : List α} {a : α} (h : l₁ <:+: l₂) :
    l₁ <:+: a :: l₂ :=
  List.infix_cons h

lemma infixConsIff {α : Type} {l₁ l₂ : List α} {a : α} :
    l₁ <:+: a :: l₂ ↔ l₁ <+: a :: l₂ ∨ l₁ <:+: l₂ :=
  List.infix_cons_iff

lemma infixNilIff {α : Type} {l : List α} : l <:+: [] ↔ l = [] :=
  List.infix_nil

lemma deleteOccFuel_length_le (p : List Char) :
    ∀ (fuel : Nat) (s : List Char), (deleteOccFuel p fuel s).length ≤ s.length
  | 0, _ => Nat.le_refl _
  | _ + 1, [] => Nat.le_refl _
  | fuel + 1, c :: rest => by
    simp only [deleteOccFuel]
    split
    · exact le_trans (deleteOccFuel_length_le p fuel _)
        (by simp only [List.length_drop, List.length_cons]; omega)
    · simpa using deleteOccFuel_length_le p fuel rest

lemma deleteOccFuel_of_no_occurrence (p : List Char) (hp : p ≠ []) :
    ∀ (fuel : Nat) (s : List Char), ¬ p <:+: s → deleteOccFuel p fuel s = s
  | 0, _, _ => rfl
  | _ + 1, [], _ => rfl
  | fuel + 1, c :: rest, h => by
    have hnp : ¬ (p ≠ [] ∧ p.isPrefixOf (c :: rest)) := by
      rintro ⟨-, hpfx⟩
      exact h (prefixIsInfix ((isPrefixOfIff p (c :: rest)).mp hpfx))
    simp only [deleteOccFuel, if_neg hnp]
    rw [deleteOccFuel_of_no_occurrence p hp fuel rest (fun hi => h (infixCons hi))]

lemma deleteOccFuel_length_lt (p : List Char) (hp : p ≠ []) :
    ∀ (fuel : Nat) (s : List Char), s.length ≤ fuel → p <:+: s →
      (deleteOccFuel p fuel s).length < s.length
  | 0, s, hle, hinf => by
    have hs : s = [] := List.length_eq_zero.mp (Nat.le_zero.mp hle)
    subst hs
    exact absurd (infixNilIff.mp hinf) hp
  | _ + 1, [], _, hinf => absurd (infixNilIff.mp hinf) hp
  | fuel + 1, c :: rest, hle, hinf => by
    by_cases hcond : p ≠ [] ∧ p.isPrefixOf (c :: rest)
    · simp only [deleteOccFuel, if_pos hcond]
      calc (deleteOccFuel p fuel (rest.drop (p.length - 1))).length
          ≤ (rest.drop (p.length - 1)).length := deleteOccFuel_length_le p fuel _
        _ ≤ rest.length := by simp only [List.length_drop]; omega
        _ < (c :: rest).length := by simp
    · simp only [deleteOccFuel, if_neg hcond]
      have hpfx : ¬ p <+: c :: rest := fun hpf =>
        hcond ⟨hp, (isPrefixOfIff p (c :: rest)).mpr hpf⟩
      have hrest : p <:+: rest := (infixConsIff.mp hinf).resolve_left hpfx
      have hfle : rest.length ≤ fuel := by
        simp only [List.length_cons] at hle; omega
      simpa using Nat.succ_lt_succ (deleteOccFuel_length_lt p hp fuel rest hfle hrest)

lemma deleteOcc_length_le (p s : List Char) : (deleteOcc p s).length ≤ s.length :=
  deleteOccFuel_length_le p s.length s

lemma deleteOcc_of_no_occurrence (p s : List Char) (hp : p ≠ []) (h : ¬ p <:+: s) :
    deleteOcc p s = s :=
  deleteOccFuel_of_no_occurrence p hp s.length s h

lemma deleteOcc_length_lt (p s : List Char) (hp : p ≠ []) (h : p <:+: s) :
    (deleteOcc p s).length < s.length :=
  deleteOccFuel_length_lt p hp s.length s (Nat.le_refl _) h

lemma deleteOcc_eq_self_iff (p s : List Char) (hp : p ≠ []) :
    deleteOcc p s = s ↔ ¬ p <:+: s := by
  constructor
  · intro he hinf
    have hlt := deleteOcc_length_lt p s hp hinf
    rw [he] at hlt
    exact absurd hlt (Nat.lt_irrefl _)
  · exact deleteOcc_of_no_occurrence p s hp

/-! ### Permutation and emptiness helper lemmas -/

lemma perm_isEmpty {α : Type} {l l' : List α} (h : l.Perm l') :
    l.isEmpty = l'.isEmpty := by
  have hl := h.length_eq
  rw [Bool.eq_iff_iff, List.isEmpty_iff, List.isEmpty_iff]
  constructor
  · intro he; rw [he] at hl; exact List.length_eq_zero.mp hl.symm
  · intro he; rw [he] at hl; exact List.length_eq_zero.mp hl

lemma perm_all {α : Type} (p : α → Bool) {l l' : List α} (h : l.Perm l') :
    l.all p = l'.all p := by
  rw [Bool.eq_iff_iff, List.all_eq_true, List.all_eq_true]
  exact ⟨fun ha x hx => ha x (h.mem_iff.mpr hx),
    fun ha x hx => ha x (h.mem_iff.mp hx)⟩

lemma all_congr_fun {α : Type} {l : List α} {p q : α → Bool}
    (hpq : ∀ x ∈ l, p x = q x) : l.all p = l.all q := by
  rw [Bool.eq_iff_iff, List.all_eq_true, List.all_eq_true]
  exact ⟨fun ha x hx => (hpq x hx) ▸ ha x hx,
    fun ha x hx => (hpq x hx).symm ▸ ha x hx⟩

lemma filterMap_isEmpty_congr {α β : Type} {l : List α} {f g : α → Option β}
    (hfg : ∀ a ∈ l, (f a).isSome = (g a).isSome) :
    (l.filterMap f).isEmpty = (l.filterMap g).isEmpty := by
  rw [Bool.eq_iff_iff, List.isEmpty_iff, List.isEmpty_iff,
    List.filterMap_eq_nil_iff, List.filterMap_eq_nil_iff]
  constructor <;> intro hh a ha
  · rw [← Option.not_isSome_iff_eq_none, ← hfg a ha,
      Option.not_isSome_iff_eq_none]
    exact hh a ha
  · rw [← Option.not_isSome_iff_eq_none, hfg a ha,
      Option.not_isSome_iff_eq_none]
    exact hh a ha

lemma flatMap_perm {γ α : Type} (xs : List γ) (F G : γ → List α)
    (hFG : ∀ a, (F a).Perm (G a)) : (xs.flatMap F).Perm (xs.flatMap G) := by
  induction xs with
  | nil => exact List.Perm.refl _
  | cons a as ih =>
    rw [List.flatMap_cons, List.flatMap_cons]
    exact (hFG a).append ih

lemma validate_it_fst (nodes : List Node) (config : CloudProviderConfig) :
    (validate_instance_types nodes config).1 = !(itFound nodes config).isEmpty := by
  unfold validate_instance_types itFound
  by_cases h : (nodes.filterMap
      (instanceEntry config.instance_families (use_exact config.instance_families))).isEmpty <;>
    simp [h]

lemma summaryOpt_isSome (accel : AcceleratorConfig) (nodes : List Node) :
    (summaryOpt accel nodes).isSome =
      !(nodes.filterMap (entryOpt (nodeAccelEntry accel))).isEmpty := by
  unfold summaryOpt
  by_cases h : (nodes.filterMap (entryOpt (nodeAccelEntry accel))).isEmpty <;> simp [h]

lemma validate_accelerators_scanOk (nodes : List Node) (config : CloudProviderConfig)
    (h : exOk (validate_accelerators nodes config) = true) :
    ∀ a ∈ config.accelerators, exOk (scanEntries (nodeAccelEntry a) nodes) = true := by
  rw [exOk_validate_accelerators] at h
  intro a ha
  rw [exOk_scanEntries]
  exact List.all_eq_true.mp h a ha

lemma accelResultBool_of_ok (nodes : List Node) (config : CloudProviderConfig)
    (h : ∀ a ∈ config.accelerators, exOk (scanEntries (nodeAccelEntry a) nodes) = true) :
    accelResultBool nodes config =
      some (!(config.accelerators.filterMap (fun a => summaryOpt a nodes)).isEmpty) := by
  have hs := accelSummaries_ok nodes config.accelerators h
  unfold accelResultBool validate_accelerators
  rw [hs]
  by_cases he :
      (config.accelerators.filterMap (fun a => summaryOpt a nodes)).isEmpty <;>
    simp [he]

lemma accelResultBool_none (nodes : List Node) (config : CloudProviderConfig)
    (h : exOk (validate_accelerators nodes config) = false) :
    accelResultBool nodes config = none := by
  unfold accelResultBool
  cases hv : validate_accelerators nodes config with
  | error e => rfl
  | ok r => rw [hv] at h; simp [exOk] at h

lemma exOk_validate_perm (config : CloudProviderConfig) {nodes nodes' : List Node}
    (h : nodes.Perm nodes') :
    exOk (validate_accelerators nodes config) =
      exOk (validate_accelerators nodes' config) := by
  rw [exOk_validate_accelerators, exOk_validate_accelerators]
  exact all_congr_fun (fun a _ => perm_all _ h)

lemma exOk_nodeAccelEntry (accel : AcceleratorConfig) (node : Node) :
    exOk (nodeAccelEntry accel node) =
      (pyInt ((alookup node.allocatable accel.resource_key).getD "0")).isSome := by
  simp only [nodeAccelEntry]
  cases hp : pyInt ((alookup node.allocatable accel.resource_key).getD "0") with
  | none => simp [exOk]
  | some c =>
    by_cases hc : ((alookup node.labels accel.type_label).getD "" ≠ "" ∧ c > 0) <;>
      simp [exOk, hc]

lemma detect_provider_skip (nodes : List Node) :
    ∀ (pre rest : List (String × CloudProviderConfig)),
      (∀ p ∈ pre, detect_cloud nodes p.2 = false) →
      detect_provider nodes (pre ++ rest) = detect_provider nodes rest
  | [], _, _ => rfl
  | (pn, pc) :: ps, rest, h => by
    simp only [List.cons_append, detect_provider]
    rw [h ⟨pn, pc⟩ (List.mem_cons_self _ _)]
    simp only [Bool.false_eq_true, if_false]
    exact detect_provider_skip nodes ps rest (fun q hq => h q (List.mem_cons_of_mem _ hq))

lemma detect_provider_none (nodes : List Node) :
    ∀ registry : List (String × CloudProviderConfig),
      (∀ p ∈ registry, detect_cloud nodes p.2 = false) →
      detect_provider nodes registry = none
  | [], _ => rfl
  | (pn, pc) :: ps, h => by
    simp only [detect_provider]
    rw [h ⟨pn, pc⟩ (List.mem_cons_self _ _)]
    simp only [Bool.false_eq_true, if_false]
    exact detect_provider_none nodes ps (fun q hq => h q (List.mem_cons_of_mem _ hq))

/-! ### Claim theorems -/

/-- C1, counterexample: on a node whose `nvidia.com/gpu` allocatable value is
the malformed string `bogus`, the accelerator validator raises the `int`
parse failure out of the validator (modelled `Except.error`) instead of
treating the value as zero and returning a `ValidationResult `. -/
theorem C1_counterexample :
    validate_accelerators
      [⟨"bad-node", [("nvidia.com/gpu.present", "true")],
        [("nvidia.com/gpu", "bogus")]⟩] azure_config =
      .error "invalid literal for int with base 10: bogus" := by decide

/-- C1, amended: a missing allocatable entry for the resource key is read as
the default string `0`, parses to zero and the node counts as
accelerator-absent without raising; but a present value that fails integer
parsing raises out of the validator: the accelerator validator returns a
`ValidationResult` exactly when every node value for every configured
resource key parses. -/
theorem C1_amended (nodes : List Node) (config : CloudProviderConfig)
    (accel : AcceleratorConfig) (node : Node) :
    (alookup node.allocatable accel.resource_key = none →
      nodeAccelEntry accel node = .ok none)
    ∧ (∀ v, alookup node.allocatable accel.resource_key = some v →
        pyInt v = none →
        nodeAccelEntry accel node =
          .error ("invalid literal for int with base 10: " ++ v))
    ∧ (exOk (validate_accelerators nodes config) = true ↔
        ∀ a ∈ config.accelerators, ∀ n ∈ nodes,
          (pyInt ((alookup n.allocatable a.resource_key).getD "0")).isSome = true) := by
  refine ⟨?_, ?_, ?_⟩
  · intro h
    have h0 : pyInt "0" = some 0 := by decide
    simp [nodeAccelEntry, h, h0]
  · intro v hv hpy
    simp [nodeAccelEntry, hv, hpy]
  · rw [exOk_validate_accelerators]
    simp only [List.all_eq_true, exOk_nodeAccelEntry]

/-- C1 witness: with no allocatable entry at all, the azure GPU accelerator
definition yields no entry and the validator returns normally. -/
theorem C1_witness :
    nodeAccelEntry
      ⟨"GPU", "nvidia.com/gpu.present", "nvidia.com/gpu", []⟩
      ⟨"dry-node", [("nvidia.com/gpu.present", "true")], []⟩ = Except.ok none
    ∧ exOk (validate_accelerators
        [⟨"dry-node", [("nvidia.com/gpu.present", "true")], []⟩] azure_config) = true :=
  ⟨(C1_amended [] azure_config
      ⟨"GPU", "nvidia.com/gpu.present", "nvidia.com/gpu", []⟩
      ⟨"dry-node", [("nvidia.com/gpu.present", "true")], []⟩).1 rfl,
   (C1_amended [⟨"dry-node", [("nvidia.com/gpu.present", "true")], []⟩] azure_config
      ⟨"GPU", "nvidia.com/gpu.present", "nvidia.com/gpu", []⟩
      ⟨"dry-node", [("nvidia.com/gpu.present", "true")], []⟩).2.2.mpr (by decide)⟩

/-- C2, counterexample: the Azure instance-type validator and the GCP
zone-compatibility validator do not guard the node-listing call; a listing
failure propagates out of them instead of becoming a failed
`ValidationResult`. -/
theorem C2_counterexample :
    azure_validate_instance_types (.error "connection refused") =
      .error "connection refused"
    ∧ validate_zone_compatibility (.error "connection refused") =
      .error "connection refused" := ⟨rfl, rfl⟩

/-- C2, amended: only the GCP GPU and TPU sub-checks degrade a node-listing
failure to a failed `ValidationResult` carrying the underlying error text;
the Azure instance-type and accelerator validators, the GCP instance-type
validator and the zone-compatibility validator propagate the failure. -/
theorem C2_amended (e : String) :
    gcp_check_gpu (.error e) = .ok (false, "Failed to query nodes: " ++ e)
    ∧ gcp_check_tpu (.error e) = .ok (false, "Failed to query nodes: " ++ e)
    ∧ gcp_validate_accelerators (.error e) =
        .ok (false, "No accelerators found. GPU: " ++
          ("Failed to query nodes: " ++ e) ++ ", TPU: " ++
          ("Failed to query nodes: " ++ e))
    ∧ azure_validate_instance_types (.error e) = .error e
    ∧ azure_validate_accelerators (.error e) = .error e
    ∧ gcp_validate_instance_types (.error e) = .error e
    ∧ validate_zone_compatibility (.error e) = .error e :=
  ⟨rfl, rfl, rfl, rfl, rfl, rfl, rfl⟩

/-- C6, counterexample: a node carrying only the legacy
`beta.kubernetes.io/instance-type` label with a supported family is not
considered by the GCP instance-type validator, although the same snapshot
passes the generic validator under a prefix family list; so the legacy key
alone does not suffice for every instance-type validator. -/
theorem C6_counterexample :
    gcp_it_check
      [⟨"gcp-node", [("beta.kubernetes.io/instance-type", "n1-standard-4")], []⟩] =
      (false, "No supported machine types. Expected families: " ++
        pyListRepr (TPU_MACHINE_FAMILIES ++ GPU_MACHINE_FAMILIES))
    ∧ firstSegment "n1-standard-4" ∈ TPU_MACHINE_FAMILIES ++ GPU_MACHINE_FAMILIES
    ∧ validate_instance_types
        [⟨"gcp-node", [("beta.kubernetes.io/instance-type", "n1-standard-4")], []⟩]
        ⟨[], ["n1"], []⟩ =
        (true, "Found supported instance types: n1-standard-4 on gcp-node") :=
  ⟨by decide, by decide, by decide⟩

/-- C6, amended: the generic and Azure instance-type validators read the
newer label key and fall back to the legacy key exactly when the newer key
is absent or empty (a non-empty newer value wins, and either key alone
suffices); the GCP instance-type validator reads only the newer key, so a
node lacking it is never matched whatever the legacy key holds. -/
theorem C6_amended (labels : List (String × String)) (v : String) :
    (alookup labels "node.kubernetes.io/instance-type" = some v → v ≠ "" →
      getInstanceType labels = v)
    ∧ (alookup labels "node.kubernetes.io/instance-type" = none →
      getInstanceType labels =
        (alookup labels "beta.kubernetes.io/instance-type").getD "")
    ∧ (alookup labels "node.kubernetes.io/instance-type" = some "" →
      getInstanceType labels =
        (alookup labels "beta.kubernetes.io/instance-type").getD "")
    ∧ (∀ (n : String) (alloc : List (String × String)),
        alookup labels "node.kubernetes.io/instance-type" = none →
        gcpInstanceEntry ⟨n, labels, alloc⟩ = none) := by
  refine ⟨?_, ?_, ?_, ?_⟩
  · intro h hv
    simp [getInstanceType, h, hv]
  · intro h
    simp [getInstanceType, h]
  · intro h
    simp [getInstanceType, h]
  · intro n alloc h
    simp [gcpInstanceEntry, h]

/-- C6 witness: with both keys set, the non-empty newer value wins; with the
legacy key only, its value is used; a legacy-only node is invisible to the
GCP validator. -/
theorem C6_witness :
    getInstanceType
      [("node.kubernetes.io/instance-type", "Standard_New"),
       ("beta.kubernetes.io/instance-type", "Standard_Old")] = "Standard_New"
    ∧ getInstanceType [("beta.kubernetes.io/instance-type", "Standard_Old")] =
        "Standard_Old"
    ∧ gcpInstanceEntry
        ⟨"g1", [("beta.kubernetes.io/instance-type", "n1-standard-4")], []⟩ = none :=
  ⟨(C6_amended
      [("node.kubernetes.io/instance-type", "Standard_New"),
       ("beta.kubernetes.io/instance-type", "Standard_Old")] "Standard_New").1
      (by decide) (by decide),
   (C6_amended [("beta.kubernetes.io/instance-type", "Standard_Old")] "").2.1 rfl,
   (C6_amended [("beta.kubernetes.io/instance-type", "n1-standard-4")] "").2.2.2
      "g1" [] rfl⟩

/-- C8: the provider detector scans the registry in declaration order and
returns the first provider one of whose detection labels appears on some
node, regardless of later registry entries; it returns `none` when no
provider matches, and in particular on every empty snapshot. -/
theorem C8_detection_order (nodes : List Node)
    (pre post : List (String × CloudProviderConfig)) (name : String)
    (config : CloudProviderConfig)
    (hpre : ∀ p ∈ pre, detect_cloud nodes p.2 = false)
    (hconf : detect_cloud nodes config = true) :
    detect_provider nodes (pre ++ (name, config) :: post) = some name
    ∧ (∀ registry : List (String × CloudProviderConfig),
        (∀ p ∈ registry, detect_cloud nodes p.2 = false) →
        detect_provider nodes registry = none)
    ∧ (∀ registry : List (String × CloudProviderConfig),
        detect_provider [] registry = none) := by
  refine ⟨?_, detect_provider_none nodes, ?_⟩
  · rw [detect_provider_skip nodes pre _ hpre]
    simp [detect_provider, hconf]
  · intro registry
    exact detect_provider_none [] registry (fun p _ => rfl)

/-- C8 witness: an Azure-labeled node is detected as `azure` even behind a
non-matching registry entry, and the empty snapshot detects nothing. -/
theorem C8_witness :
    detect_provider
      [⟨"aks-node", [("kubernetes.azure.com/cluster", "c1")], []⟩]
      ([("fake", ⟨["fake.example/label"], [], []⟩)] ++ ("azure", azure_config) :: []) =
      some "azure"
    ∧ detect_provider [] CLOUD_PROVIDERS = none := by
  have h := C8_detection_order
    [⟨"aks-node", [("kubernetes.azure.com/cluster", "c1")], []⟩]
    [("fake", ⟨["fake.example/label"], [], []⟩)] [] "azure" azure_config
    (by decide) (by decide)
  exact ⟨h.1, h.2.2 CLOUD_PROVIDERS⟩

/-- C10: the GPU model key deletes every occurrence of `nvidia-tesla-` and
then of `nvidia-` anywhere in the accelerator label value, and the format
warning fires exactly when neither substring occurs, in which case the value
is used verbatim as the model key. -/
theorem C10_gpu_model_normalization (v : String) :
    (gpuFormatWarn v = true ↔
      (¬ "nvidia-tesla-".data <:+: v.data ∧ ¬ "nvidia-".data <:+: v.data))
    ∧ (gpuFormatWarn v = true → gpuShort v = v) := by
  have hts : "nvidia-tesla-".data ≠ [] := by decide
  have hn : "nvidia-".data ≠ [] := by decide
  have hwarn : gpuFormatWarn v = true ↔ gpuShort v = v := by
    simp [gpuFormatWarn]
  have hdata : gpuShort v = v ↔
      deleteOcc "nvidia-".data (deleteOcc "nvidia-tesla-".data v.data) = v.data :=
    String.ext_iff
  refine ⟨?_, fun h => hwarn.mp h⟩
  rw [hwarn, hdata]
  constructor
  · intro h
    have h1 : (deleteOcc "nvidia-tesla-".data v.data).length ≤ v.data.length :=
      deleteOcc_length_le _ _
    have h2 : (deleteOcc "nvidia-".data
        (deleteOcc "nvidia-tesla-".data v.data)).length ≤
        (deleteOcc "nvidia-tesla-".data v.data).length := deleteOcc_length_le _ _
    have hlen := congrArg List.length h
    have hti : ¬ "nvidia-tesla-".data <:+: v.data := by
      intro hi
      have := deleteOcc_length_lt "nvidia-tesla-".data v.data hts hi
      omega
    have hx : deleteOcc "nvidia-tesla-".data v.data = v.data :=
      deleteOcc_of_no_occurrence _ _ hts hti
    rw [hx] at h
    exact ⟨hti, (deleteOcc_eq_self_iff _ _ hn).mp h⟩
  · rintro ⟨h1, h2⟩
    rw [deleteOcc_of_no_occurrence _ _ hts h1, deleteOcc_of_no_occurrence _ _ hn h2]

/-- C10 witness: a value with no vendor substring warns and passes through
verbatim. -/
theorem C10_witness : gpuFormatWarn "t4" = true ∧ gpuShort "t4" = "t4" :=
  ⟨by decide, (C10_gpu_model_normalization "t4").2 (by decide)⟩

/-- C3: the instance-type matching mode is exact exactly when some family
string contains an underscore — a property of the static family list alone —
a non-empty instance type matches in exact mode by full-string membership
and in prefix mode by first-hyphen-segment membership, and in exact mode an
unmatched instance type is never matched via its prefix. -/
theorem C3_matching_mode (config : CloudProviderConfig) (node : Node) :
    (use_exact config.instance_families = true ↔
      ∃ f ∈ config.instance_families, '_' ∈ f.data)
    ∧ ((instanceEntry config.instance_families (use_exact config.instance_families)
        node).isSome = true ↔
        (getInstanceType node.labels ≠ "" ∧
          (if use_exact config.instance_families = true then
            getInstanceType node.labels ∈ config.instance_families
          else
            firstSegment (getInstanceType node.labels) ∈ config.instance_families)))
    ∧ (use_exact config.instance_families = true →
        getInstanceType node.labels ∉ config.instance_families →
        instanceEntry config.instance_families (use_exact config.instance_families)
          node = none) := by
  refine ⟨?_, ?_, ?_⟩
  · simp [use_exact, List.any_eq_true]
  · simp only [instanceEntry]
    by_cases h0 : getInstanceType node.labels = ""
    · simp [h0]
    · cases hx : use_exact config.instance_families
      · by_cases hm :
            firstSegment (getInstanceType node.labels) ∈ config.instance_families <;>
          simp [h0, hm]
      · by_cases hm : getInstanceType node.labels ∈ config.instance_families <;>
          simp [h0, hm]
  · intro hx hm
    by_cases h0 : getInstanceType node.labels = "" <;>
      simp [instanceEntry, hx, hm, h0]

/-- C3 witness: a family list mixing an underscore entry with a plain entry
selects exact mode, and an instance type whose hyphen prefix is listed but
whose full name is not does not match. -/
theorem C3_witness :
    use_exact ["ab_cd", "foo"] = true
    ∧ "foo-bar" ∉ ["ab_cd", "foo"]
    ∧ firstSegment "foo-bar" ∈ ["ab_cd", "foo"]
    ∧ instanceEntry ["ab_cd", "foo"] (use_exact ["ab_cd", "foo"])
        ⟨"n1", [("node.kubernetes.io/instance-type", "foo-bar")], []⟩ = none :=
  ⟨by decide, by decide, by decide,
   (C3_matching_mode ⟨[], ["ab_cd", "foo"], []⟩
      ⟨"n1", [("node.kubernetes.io/instance-type", "foo-bar")], []⟩).2.2
      (by decide) (by decide)⟩

/-- C4, counterexample: the Azure accelerator validator counts a node whose
presence label is set to the empty string, because it tests bare key
presence; so "presence label set to a non-empty value" is not necessary for
every accelerator validator. -/
theorem C4_counterexample :
    azure_validate_accelerators
      (.ok [⟨"gpu-node", [("nvidia.com/gpu.present", "")],
        [("nvidia.com/gpu", "1")]⟩]) =
      .ok (true, "GPU available on: gpu-node (1 GPUs)")
    ∧ (alookup [("nvidia.com/gpu.present", "")] "nvidia.com/gpu.present").getD "" = "" :=
  ⟨by decide, by decide⟩

/-- C4, amended: the generic accelerator validator counts a node exactly when
the presence label holds a non-empty value and the parsed count is positive;
the Azure validator counts a node exactly when the presence label key exists
(an empty value included) and the parsed count is positive; a node whose
quantity parses to zero contributes nothing yet returns normally. -/
theorem C4_amended (accel : AcceleratorConfig) (node : Node) :
    ((entryOpt (nodeAccelEntry accel) node).isSome = true ↔
      ((alookup node.labels accel.type_label).getD "" ≠ "" ∧
        0 < (pyInt ((alookup node.allocatable accel.resource_key).getD "0")).getD 0))
    ∧ ((entryOpt azureAccelEntry node).isSome = true ↔
      ((alookup node.labels "nvidia.com/gpu.present").isSome = true ∧
        0 < (pyInt ((alookup node.allocatable "nvidia.com/gpu").getD "0")).getD 0))
    ∧ (pyInt ((alookup node.allocatable accel.resource_key).getD "0") = some 0 →
        nodeAccelEntry accel node = .ok none)
    ∧ (pyInt ((alookup node.allocatable "nvidia.com/gpu").getD "0") = some 0 →
        azureAccelEntry node = .ok none) := by
  refine ⟨?_, ?_, ?_, ?_⟩
  · simp only [entryOpt, nodeAccelEntry]
    cases hp : pyInt ((alookup node.allocatable accel.resource_key).getD "0") with
    | none => simp
    | some c =>
      by_cases hc : ((alookup node.labels accel.type_label).getD "" ≠ "" ∧ c > 0)
      · simp [hc, hc.1, hc.2]
      · simp only [if_neg hc, Option.getD_some]
        constructor
        · intro hh; simp at hh
        · intro hh; exact absurd hh hc
  · simp only [entryOpt, azureAccelEntry]
    by_cases hl : (alookup node.labels "nvidia.com/gpu.present").isSome = true
    · rw [if_pos hl]
      cases hp : pyInt ((alookup node.allocatable "nvidia.com/gpu").getD "0") with
      | none => simp [hl]
      | some c =>
        by_cases hc : c > 0
        · simp [hl, hc]
        · simp [hl, hc]
    · rw [if_neg hl]
      simp [hl]
  · intro h
    simp [nodeAccelEntry, h]
  · intro h
    by_cases hl : (alookup node.labels "nvidia.com/gpu.present").isSome = true <;>
      simp [azureAccelEntry, h, hl]

/-- C4 witness: a non-empty presence value with positive count is counted,
and a zero count yields no entry but a normal return. -/
theorem C4_witness :
    (entryOpt (nodeAccelEntry ⟨"GPU", "nvidia.com/gpu.present", "nvidia.com/gpu", []⟩)
      ⟨"w-node", [("nvidia.com/gpu.present", "true")],
        [("nvidia.com/gpu", "2")]⟩).isSome = true
    ∧ nodeAccelEntry ⟨"GPU", "nvidia.com/gpu.present", "nvidia.com/gpu", []⟩
        ⟨"z-node", [("nvidia.com/gpu.present", "true")],
          [("nvidia.com/gpu", "0")]⟩ = .ok none :=
  ⟨(C4_amended ⟨"GPU", "nvidia.com/gpu.present", "nvidia.com/gpu", []⟩
      ⟨"w-node", [("nvidia.com/gpu.present", "true")],
        [("nvidia.com/gpu", "2")]⟩).1.mpr (by decide),
   (C4_amended ⟨"GPU", "nvidia.com/gpu.present", "nvidia.com/gpu", []⟩
      ⟨"z-node", [("nvidia.com/gpu.present", "true")],
        [("nvidia.com/gpu", "0")]⟩).2.2.1 (by decide)⟩

/-- C5: the zone-compatibility check succeeds exactly when no node produced a
warning; association-list lookup is exact case-sensitive string matching on
keys; and a node whose normalized TPU or GPU model has no zone-table entry
contributes no warning. -/
theorem C5_zone_rules (nodes : List Node) (node : Node)
    (m : List (String × String)) (k : String) :
    ((zone_check nodes).1 = true ↔ nodes.flatMap nodeZoneWarnings = [])
    ∧ (alookup m k = none ↔ ∀ p ∈ m, p.1 ≠ k)
    ∧ (zoneTableFor "tpu"
        (tpuVersionOf ((alookup node.labels
          "cloud.google.com/gke-tpu-accelerator").getD "")) = [] →
        tpuZoneWarning node = [])
    ∧ (zoneTableFor "gpu"
        (gpuShort ((alookup node.labels
          "cloud.google.com/gke-accelerator").getD "")) = [] →
        gpuZoneWarning node = []) := by
  refine ⟨?_, ?_, ?_, ?_⟩
  · unfold zone_check
    by_cases h : (nodes.flatMap nodeZoneWarnings).isEmpty
    · simp [h, List.isEmpty_iff.mp h]
    · have h' : nodes.flatMap nodeZoneWarnings ≠ [] := by
        intro hh
        exact h (by simp [hh])
      simp [h, h']
  · simp [alookup, List.find?_eq_none]
  · intro h
    simp only [tpuZoneWarning, h]
    simp
  · intro h
    simp only [gpuZoneWarning, h]
    simp

/-- C5 witness: an unknown GPU model is compatible anywhere, and a zone key
differing only in case from a table key does not match. -/
theorem C5_witness :
    gpuZoneWarning
      ⟨"g1", [("cloud.google.com/gke-accelerator", "nvidia-zz99"),
              ("topology.kubernetes.io/zone", "mars-1")], []⟩ = []
    ∧ alookup [("us-central1-a", "US Central")] "US-CENTRAL1-A" = none
    ∧ ((zone_check []).1 = true ↔ ([] : List Node).flatMap nodeZoneWarnings = []) := by
  have h := C5_zone_rules []
    ⟨"g1", [("cloud.google.com/gke-accelerator", "nvidia-zz99"),
            ("topology.kubernetes.io/zone", "mars-1")], []⟩
    [("us-central1-a", "US Central")] "US-CENTRAL1-A"
  exact ⟨h.2.2.2 (by decide), h.2.1.mpr (by decide), h.1⟩

set_option maxRecDepth 8000 in
/-- C7, counterexample: on success the Azure instance-type message lists each
matched supported type with a node count; it does not contain the matching
node name, so it does not enumerate (instance-type, node-name) pairs. -/
theorem C7_counterexample :
    azure_it_check
      [⟨"node-a",
        [("node.kubernetes.io/instance-type", "Standard_NC24ads_A100_v4")], []⟩] =
      (true,
       "Found supported Azure instance types: Standard_NC24ads_A100_v4 (1 nodes)")
    ∧ ¬ ("node-a".data <:+:
        "Found supported Azure instance types: Standard_NC24ads_A100_v4 (1 nodes)".data) :=
  ⟨by decide, by decide⟩

/-- C7, amended: each instance-type validator succeeds exactly when the total
match count is positive; on success the generic and GCP messages enumerate
every matched (instance-type, node-name) pair while the Azure message
enumerates each matched supported type with its node count; on failure each
message carries the full expected-family list. -/
theorem C7_amended (nodes : List Node) (config : CloudProviderConfig) :
    ((validate_instance_types nodes config).1 = true ↔
      0 < (itFound nodes config).length)
    ∧ (itFound nodes config ≠ [] →
        (validate_instance_types nodes config).2 =
          "Found supported instance types: " ++
            String.intercalate ", " (itFound nodes config))
    ∧ (itFound nodes config = [] →
        (validate_instance_types nodes config).2 =
          "No supported instance types found. Expected families: " ++
            pyListRepr config.instance_families)
    ∧ ((azure_it_check nodes).1 = true ↔
        0 < (SUPPORTED_INSTANCES.map (azureCount nodes)).sum)
    ∧ (SUPPORTED_INSTANCES.filterMap (fun vm =>
          if 0 < azureCount nodes vm then
            some (vm ++ " (" ++ toString (azureCount nodes vm) ++ " nodes)")
          else none) ≠ [] →
        (azure_it_check nodes).2 =
          "Found supported Azure instance types: " ++
            String.intercalate ", " (SUPPORTED_INSTANCES.filterMap (fun vm =>
              if 0 < azureCount nodes vm then
                some (vm ++ " (" ++ toString (azureCount nodes vm) ++ " nodes)")
              else none)))
    ∧ ((SUPPORTED_INSTANCES.map (azureCount nodes)).sum = 0 →
        (azure_it_check nodes).2 =
          "No supported Azure instance types found. Expected: " ++
            pyListRepr SUPPORTED_INSTANCES)
    ∧ ((gcp_it_check nodes).1 = true ↔
        0 < (nodes.filterMap gcpInstanceEntry).length)
    ∧ (nodes.filterMap gcpInstanceEntry ≠ [] →
        (gcp_it_check nodes).2 = "Found supported machine types: " ++
          String.intercalate ", " (nodes.filterMap gcpInstanceEntry))
    ∧ (nodes.filterMap gcpInstanceEntry = [] →
        (gcp_it_check nodes).2 =
          "No supported machine types. Expected families: " ++
            pyListRepr (TPU_MACHINE_FAMILIES ++ GPU_MACHINE_FAMILIES)) := by
  have hfoundiff : SUPPORTED_INSTANCES.filterMap (fun vm =>
        if 0 < azureCount nodes vm then
          some (vm ++ " (" ++ toString (azureCount nodes vm) ++ " nodes)")
        else none) = [] ↔
      (SUPPORTED_INSTANCES.map (azureCount nodes)).sum = 0 := by
    rw [List.filterMap_eq_nil_iff, List.sum_eq_zero_iff]
    constructor
    · intro h x hx
      rw [List.mem_map] at hx
      obtain ⟨vm, hvm, rfl⟩ := hx
      have hvmz := h vm hvm
      by_cases hc : 0 < azureCount nodes vm
      · rw [if_pos hc] at hvmz; simp at hvmz
      · omega
    · intro h vm hvm
      have hz : azureCount nodes vm = 0 :=
        h _ (List.mem_map.mpr ⟨vm, hvm, rfl⟩)
      rw [if_neg (by omega)]
  refine ⟨?_, ?_, ?_, ?_, ?_, ?_, ?_, ?_, ?_⟩
  · rw [validate_it_fst]
    simp [List.isEmpty_eq_false, List.length_pos]
  · intro h
    unfold itFound at h
    have he := List.isEmpty_eq_false.mpr h
    unfold validate_instance_types
    simp [he, itFound]
  · intro h
    unfold itFound at h
    have he := List.isEmpty_iff.mpr h
    unfold validate_instance_types
    simp [he]
  · by_cases he : (SUPPORTED_INSTANCES.filterMap (fun vm =>
        if 0 < azureCount nodes vm then
          some (vm ++ " (" ++ toString (azureCount nodes vm) ++ " nodes)")
        else none)).isEmpty
    · have h0 := hfoundiff.mp (List.isEmpty_iff.mp he)
      unfold azure_it_check
      simp [he, h0]
    · have h1 : (SUPPORTED_INSTANCES.map (azureCount nodes)).sum ≠ 0 := by
        intro hh
        rw [List.isEmpty_iff] at he
        exact he (hfoundiff.mpr hh)
      have h2 : ¬ ∀ a ∈ SUPPORTED_INSTANCES, azureCount nodes a = 0 := by
        intro hall
        refine h1 (List.sum_eq_zero_iff.mpr ?_)
        intro x hx
        rw [List.mem_map] at hx
        obtain ⟨vm, hvm, rfl⟩ := hx
        exact hall vm hvm
      rw [Bool.not_eq_true] at he
      unfold azure_it_check
      simp [he, Nat.pos_iff_ne_zero, h1, h2]
  · intro h
    have he := List.isEmpty_eq_false.mpr h
    unfold azure_it_check
    simp [he]
  · intro h
    have he := List.isEmpty_iff.mpr (hfoundiff.mpr h)
    unfold azure_it_check
    simp [he]
  · unfold gcp_it_check
    by_cases he : (nodes.filterMap gcpInstanceEntry).isEmpty
    · simp [he, List.isEmpty_iff.mp he]
    · rw [Bool.not_eq_true] at he
      have h1 := List.isEmpty_eq_false.mp he
      simp [he, List.length_pos, h1]
  · intro h
    have he := List.isEmpty_eq_false.mpr h
    unfold gcp_it_check
    simp [he]
  · intro h
    have he := List.isEmpty_iff.mpr h
    unfold gcp_it_check
    simp [he]

/-- C7 witness: one supported Azure node makes the generic message list the
(type, node) pair, and instantiates the Azure success criterion. -/
theorem C7_witness :
    (validate_instance_types
      [⟨"node-a",
        [("node.kubernetes.io/instance-type", "Standard_NC24ads_A100_v4")], []⟩]
      azure_config).2 =
      "Found supported instance types: Standard_NC24ads_A100_v4 on node-a"
    ∧ ((azure_it_check
        [⟨"node-a",
          [("node.kubernetes.io/instance-type", "Standard_NC24ads_A100_v4")], []⟩]).1 =
          true ↔
        0 < (SUPPORTED_INSTANCES.map (azureCount
          [⟨"node-a",
            [("node.kubernetes.io/instance-type", "Standard_NC24ads_A100_v4")], []⟩])).sum) :=
  ⟨((C7_amended
      [⟨"node-a",
        [("node.kubernetes.io/instance-type", "Standard_NC24ads_A100_v4")], []⟩]
      azure_config).2.1 (by decide)).trans (by decide),
   (C7_amended
      [⟨"node-a",
        [("node.kubernetes.io/instance-type", "Standard_NC24ads_A100_v4")], []⟩]
      azure_config).2.2.2.1⟩

/-- C9: permuting the node snapshot never changes the success flag of the
generic instance-type validator, the raise-or-success outcome of the generic
accelerator validator, or the multiset of matched node names of either. -/
theorem C9_permutation (config : CloudProviderConfig) (nodes nodes' : List Node)
    (h : nodes.Perm nodes') :
    (validate_instance_types nodes config).1 = (validate_instance_types nodes' config).1
    ∧ (instanceMatchedNames nodes config).Perm (instanceMatchedNames nodes' config)
    ∧ accelResultBool nodes config = accelResultBool nodes' config
    ∧ (accelMatchedNames nodes config).Perm (accelMatchedNames nodes' config) := by
  have hfound : (itFound nodes config).Perm (itFound nodes' config) := h.filterMap _
  refine ⟨?_, h.filterMap _, ?_, ?_⟩
  · rw [validate_it_fst, validate_it_fst, perm_isEmpty hfound]
  · by_cases hok : exOk (validate_accelerators nodes config) = true
    · have hok' : exOk (validate_accelerators nodes' config) = true := by
        rw [← exOk_validate_perm config h]; exact hok
      have hs := validate_accelerators_scanOk nodes config hok
      have hs' := validate_accelerators_scanOk nodes' config hok'
      rw [accelResultBool_of_ok nodes config hs, accelResultBool_of_ok nodes' config hs']
      have hemp : (config.accelerators.filterMap (fun a => summaryOpt a nodes)).isEmpty =
          (config.accelerators.filterMap (fun a => summaryOpt a nodes')).isEmpty := by
        apply filterMap_isEmpty_congr
        intro a _
        rw [summaryOpt_isSome, summaryOpt_isSome, perm_isEmpty (h.filterMap _)]
      rw [hemp]
    · have hf : exOk (validate_accelerators nodes config) = false :=
        Bool.eq_false_iff.mpr hok
      have hf' : exOk (validate_accelerators nodes' config) = false := by
        rw [← exOk_validate_perm config h]; exact hf
      rw [accelResultBool_none nodes config hf, accelResultBool_none nodes' config hf']
  · exact flatMap_perm config.accelerators _ _ (fun a => h.filterMap _)

/-- C9 witness: swapping a two-node snapshot preserves the success flags and
the matched-name multisets. -/
theorem C9_witness :
    ([nodeX, nodeY] : List Node).Perm [nodeY, nodeX]
    ∧ ((validate_instance_types [nodeX, nodeY] azure_config).1 =
        (validate_instance_types [nodeY, nodeX] azure_config).1
      ∧ (instanceMatchedNames [nodeX, nodeY] azure_config).Perm
          (instanceMatchedNames [nodeY, nodeX] azure_config)
      ∧ accelResultBool [nodeX, nodeY] azure_config =
          accelResultBool [nodeY, nodeX] azure_config
      ∧ (accelMatchedNames [nodeX, nodeY] azure_config).Perm
          (accelMatchedNames [nodeY, nodeX] azure_config)) :=
  ⟨by decide, C9_permutation azure_config [nodeX, nodeY] [nodeY, nodeX] (by decide)⟩
